import Mathlib

/-!
Shallow embedding of the AWS-manager Telegram bot (src/main.py) and proofs
about its authorization, confirmation and audit behaviour.

The embedding models each Telegram handler of main.py as a pure function from
its inputs (configuration, environment, requester id, arguments, the wall
clock instant used for audit timestamps) to the list of observable effects it
performs, in order: AWS SDK calls, HTTP fetches, audit-table writes, fallback
process-log lines, and Telegram replies / message edits.  Message texts are
modelled by short plain-text constants (the emoji / MarkdownV2 decoration of
the originals is presentation only and is elided); control flow, effect order
and the strings the claims depend on follow the source line by line.
-/

namespace AwsBot

/-! ### Roles and configuration (main.py lines 13, 50-54) -/

/-- Requester role, per the spec's `admin | standard | none` enumeration.
In the source a role is implicit in membership of `ADMIN_USERS` /
`STANDARD_USERS`. -/
inductive Role where
  | none
  | standard
  | admin
deriving DecidableEq

/-- Numeric rank realising the total order `none < standard < admin`. -/
def roleRank : Role → Nat
  | Role.none => 0
  | Role.standard => 1
  | Role.admin => 2

/-- The two membership lists of main.py lines 50-51 (`ADMIN_USERS`,
`STANDARD_USERS`), carried explicitly so theorems can quantify over the
deployment configuration. -/
structure Config where
  adminUsers : List Nat
  standardUsers : List Nat
deriving DecidableEq

/-- The concrete configuration hard-coded in the source:
`ADMIN_USERS = [8498983488]`, `STANDARD_USERS = []` (lines 13, 50-51). -/
def codeConfig : Config := ⟨[8498983488], []⟩

/-- Guard of the `user_authorized` decorator (lines 57-66):
`user_id in ADMIN_USERS or user_id in STANDARD_USERS`. -/
def user_authorized_check (cfg : Config) (uid : Nat) : Bool :=
  cfg.adminUsers.contains uid || cfg.standardUsers.contains uid

/-- Guard of the `admin_only` decorator (lines 69-78):
`user_id in ADMIN_USERS`. -/
def admin_only_check (cfg : Config) (uid : Nat) : Bool :=
  cfg.adminUsers.contains uid

/-- Role resolution: admin-list membership wins, then standard-list
membership, otherwise no role.  This is the `resolveRole` of the spec read
off the two membership lists of lines 50-51. -/
def resolveRole (cfg : Config) (uid : Nat) : Role :=
  if cfg.adminUsers.contains uid then Role.admin
  else if cfg.standardUsers.contains uid then Role.standard
  else Role.none

/-- Every operation the bot exposes (spec section 3's ActionKind list matched
to the handlers of main.py). -/
inductive ActionKind where
  | list
  | describe
  | estimate_cost
  | instance_start
  | instance_stop
  | instance_reboot
  | instance_terminate
  | eip_allocate
  | eip_associate
  | eip_release
  | sg_rule_add
  | sg_rule_remove
deriving DecidableEq

/-- Minimum role per action, read off the decorator used by each handler
(`user_authorized` on list/describe/cost and the start/stop/reboot callbacks,
`admin_only` on the EIP and SG handlers) and the extra in-handler admin check
on the terminate callback (line 398). -/
def requiredRole : ActionKind → Role
  | ActionKind.list => Role.standard
  | ActionKind.describe => Role.standard
  | ActionKind.estimate_cost => Role.standard
  | ActionKind.instance_start => Role.standard
  | ActionKind.instance_stop => Role.standard
  | ActionKind.instance_reboot => Role.standard
  | _ => Role.admin

/-- The authorization decision the code actually makes for each action:
the decorator guard, plus for terminate the additional
`user.id not in ADMIN_USERS` check inside `handle_callback` (line 398). -/
def codeGuard (cfg : Config) (uid : Nat) : ActionKind → Bool
  | ActionKind.list => user_authorized_check cfg uid
  | ActionKind.describe => user_authorized_check cfg uid
  | ActionKind.estimate_cost => user_authorized_check cfg uid
  | ActionKind.instance_start => user_authorized_check cfg uid
  | ActionKind.instance_stop => user_authorized_check cfg uid
  | ActionKind.instance_reboot => user_authorized_check cfg uid
  | ActionKind.instance_terminate =>
      user_authorized_check cfg uid && admin_only_check cfg uid
  | _ => admin_only_check cfg uid

/-! ### Resource-id validation (main.py lines 52-54) -/

/-- `[0-9a-fA-F]` character class. -/
def isHexChar (c : Char) : Bool :=
  c.isDigit || ('a' ≤ c && c ≤ 'f') || ('A' ≤ c && c ≤ 'F')

/-- The `[0-9a-fA-F]{8,17}$` tail shared by the three id patterns. -/
def hexTail (tail : List Char) : Bool :=
  8 ≤ tail.length && tail.length ≤ 17 && tail.all isHexChar

/-- `INSTANCE_RE = ^i-[0-9a-fA-F]{8,17}$` (line 52). -/
def instanceReMatch (s : String) : Bool :=
  match s.data with
  | 'i' :: '-' :: rest => hexTail rest
  | _ => false

/-- `EIP_ALLOC_RE = ^eipalloc-[0-9a-fA-F]{8,17}$` (line 53). -/
def eipAllocReMatch (s : String) : Bool :=
  match s.data with
  | 'e' :: 'i' :: 'p' :: 'a' :: 'l' :: 'l' :: 'o' :: 'c' :: '-' :: rest => hexTail rest
  | _ => false

/-- `SG_RE = ^sg-[0-9a-fA-F]{8,17}$` (line 54). -/
def sgReMatch (s : String) : Bool :=
  match s.data with
  | 's' :: 'g' :: '-' :: rest => hexTail rest
  | _ => false

/-! ### Observable effects and the environment -/

/-- One observable side effect of a handler, in program order. -/
inductive Effect where
  | answerQuery : Effect
  | ec2Call (op : String) (args : List String) : Effect
  | httpGet (url : String) : Effect
  | auditPut (ts : Nat) (userId : String) (command : String) (details : String) : Effect
  | fallbackLog (msg : String) : Effect
  | edit (text : String) (buttons : List String) : Effect
  | reply (text : String) (buttons : List String) : Effect
deriving DecidableEq

/-- Environment the handlers run against: whether EC2 calls succeed, whether
the DynamoDB audit sink accepts writes, and the instance ids `/list` sees. -/
structure Env where
  ec2Ok : Bool
  auditOk : Bool
  instanceIds : List String
deriving DecidableEq

/-- Names of the boto3 EC2 operations invoked by the handlers. -/
def startOp : String := "start_instances"

def stopOp : String := "stop_instances"

def rebootOp : String := "reboot_instances"

def terminateOp : String := "terminate_instances"

def describeOp : String := "describe_instances"

def allocateOp : String := "allocate_address"

def associateOp : String := "associate_address"

def releaseOp : String := "release_address"

def sgIngressAddOp : String := "authorize_security_group_ingress"

def sgEgressAddOp : String := "authorize_security_group_egress"

def sgIngressRemoveOp : String := "revoke_security_group_ingress"

def sgEgressRemoveOp : String := "revoke_security_group_egress"

def ipifyUrl : String := "https://api.ipify.org"

/-! ### Message texts (plain-text cores of the source's reply strings) -/

def unauthorizedMsg : String := "Unauthorized."

def adminRequiredCmdMsg : String := "Admin access required for this command."

def adminTermMsg : String := "Admin access required to terminate."

def welcomeMsg : String := "Welcome to your AWS Manager Bot!"

def helpMsg : String := "Available Commands"

def describeUsage : String := "Usage: /describe <instance-id>"

def associateUsage : String := "Usage: /associate_eip <allocation-id> <instance-id>"

def releaseUsage : String := "Usage: /release_eip <allocation-id>"

def addIpUsage : String := "Usage: /add_ip <sg-id> <port> [inbound|outbound]"

def removeIpUsage : String := "Usage: /remove_ip <sg-id> <port> [inbound|outbound]"

def cbErrorMsg : String := "Error:"

def cmdErrorMsg : String := "Error:"

def sgErrorMsg : String := "An error occurred:"

def listErrorMsg : String := "An error occurred. This is likely an IAM permissions issue."

def noInstancesMsg : String := "No running or stopped instances found."

def describeErrorMsg : String := "Error describing instance:"

def costErrorMsg : String := "Error calculating cost:"

def auditFailMsg : String := "Failed to write to audit log"

def sinkDownMsg : String := "audit sink unavailable"

def startedMsg (iid : String) : String := "Start initiated for " ++ iid

def stoppedMsg (iid : String) : String := "Stop initiated for " ++ iid

def rebootedMsg (iid : String) : String := "Reboot initiated for " ++ iid

def terminatedMsg (iid : String) : String := "Termination started for " ++ iid

def confirmPrompt (iid : String) : String :=
  "ARE YOU ABSOLUTELY SURE you want to terminate " ++ iid ++ "?"

def describeDetails (iid : String) : String := "Instance Details: " ++ iid

def listEntry (iid : String) : String := "Instance " ++ iid

def costReportMsg : String := "Estimated EC2 Running Costs"

def allocatedMsg : String := "EIP Allocated"

def associatedMsg (alloc iid : String) : String :=
  "EIP " ++ alloc ++ " associated with instance " ++ iid

def releasedMsg (alloc : String) : String := "EIP " ++ alloc ++ " released."

def ruleAddedMsg (sg : String) : String := "Rule Added Successfully " ++ sg

def ruleRemovedMsg (sg : String) : String := "Rule Removed Successfully " ++ sg

/-! ### Audit logging (main.py lines 82-94) -/

/-- The DynamoDB `put_item` boundary: succeeds or raises, depending on sink
availability. -/
def putItem (env : Env) : Except String Unit :=
  if env.auditOk then Except.ok () else Except.error sinkDownMsg

/-- `log_action` (lines 82-94): try to append `{LogID, Timestamp, UserID,
Command, Details}` to the audit table; on any exception, write one line to
the process log (`logger.error`) and return normally.  Note the record has
no outcome field. -/
def log_action (env : Env) (now : Nat) (userId command details : String) : List Effect :=
  match putItem env with
  | Except.ok _ => [Effect.auditPut now userId command details]
  | Except.error _ => [Effect.fallbackLog auditFailMsg]

/-! ### Effect classifiers -/

/-- Is this effect a call on the EC2 (resource-control) client? -/
def isProviderCall : Effect → Bool
  | Effect.ec2Call _ _ => true
  | _ => false

/-- Is this effect a terminate-instances call? -/
def isTerminateCall : Effect → Bool
  | Effect.ec2Call op _ => op == terminateOp
  | _ => false

/-- Is this effect an audit-append attempt (durable record or its fallback
process-log line)? -/
def isAuditAttempt : Effect → Bool
  | Effect.auditPut _ _ _ _ => true
  | Effect.fallbackLog _ => true
  | _ => false

/-- Number of terminate-instances invocations in a trace. -/
def terminateCount (effs : List Effect) : Nat :=
  (effs.filter isTerminateCall).length

/-- Number of audit-append attempts in a trace. -/
def auditAttempts (effs : List Effect) : Nat :=
  (effs.filter isAuditAttempt).length

/-- The provider-client calls of a trace. -/
def providerCalls (effs : List Effect) : List Effect :=
  effs.filter isProviderCall

/-- The non-audit effects of a trace (provider calls, replies, edits…). -/
def nonAuditEffects (effs : List Effect) : List Effect :=
  effs.filter (fun e => !(isAuditAttempt e))

/-- True when some audit-append attempt precedes the first provider call
(vacuously true when the trace makes no provider call). -/
def auditBeforeEc2 : List Effect → Bool
  | [] => true
  | e :: rest =>
      if isAuditAttempt e then true
      else if isProviderCall e then false
      else auditBeforeEc2 rest

/-! ### Callback data parsing (main.py line 380: `query.data.split(":", 1)`) -/

/-- Split a character list at the first ':' — the semantics of Python's
`split(":", 1)` when at least one colon is present; `Option.none` models the
`ValueError` the two-name unpacking raises when no colon occurs. -/
def splitFirst : List Char → Option (List Char × List Char)
  | [] => Option.none
  | c :: rest =>
      if c = ':' then Option.some ([], rest)
      else
        match splitFirst rest with
        | Option.none => Option.none
        | Option.some (a, b) => Option.some (c :: a, b)

/-- Callback action names appearing in the source's `callback_data`. -/
def startActionName : String := "start"

def stopActionName : String := "stop"

def rebootActionName : String := "reboot"

def cancelActionName : String := "cancel"

def tc1ActionName : String := "terminate_confirm1"

def tc2ActionName : String := "terminate_confirm2"

def colonStr : String := ":"

/-- Build the `callback_data` string `action:iid` (e.g. line 149
`f"start:..."`, line 403 `f"terminate_confirm2:..."`). -/
def mkCb (action iid : String) : String := action ++ colonStr ++ iid

def startToken (iid : String) : String := mkCb startActionName iid

def stopToken (iid : String) : String := mkCb stopActionName iid

def rebootToken (iid : String) : String := mkCb rebootActionName iid

def cancelToken (iid : String) : String := mkCb cancelActionName iid

def tc1Token (iid : String) : String := mkCb tc1ActionName iid

def tc2Token (iid : String) : String := mkCb tc2ActionName iid

/-- `"callback:" + action`, the Command field logged at line 382. -/
def callbackCmd (action : String) : String := "callback:" ++ action

/-- The branches of the if/elif chain of lines 386-411. -/
inductive CbAction where
  | startI
  | stopI
  | rebootI
  | cancelA
  | terminateConfirm1
  | terminateConfirm2
  | other
deriving DecidableEq

/-- Resolve an action string to its dispatch branch, in source order. -/
def parseCbAction (s : String) : CbAction :=
  if s == startActionName then CbAction.startI
  else if s == stopActionName then CbAction.stopI
  else if s == rebootActionName then CbAction.rebootI
  else if s == cancelActionName then CbAction.cancelA
  else if s == tc1ActionName then CbAction.terminateConfirm1
  else if s == tc2ActionName then CbAction.terminateConfirm2
  else CbAction.other

/-- An EC2 call followed by the success edit, or by the `except` branch's
error edit when the call raises (lines 386-394, 409-413). -/
def ec2Edit (env : Env) (op iid okText : String) : List Effect :=
  Effect.ec2Call op [iid] ::
    [Effect.edit (if env.ec2Ok then okText else cbErrorMsg) []]

/-- The dispatch body of `handle_callback` (lines 386-411), after the split
and the audit append. -/
def cbDispatch (cfg : Config) (env : Env) (uid : Nat) (action iid origText : String) :
    List Effect :=
  match parseCbAction action with
  | CbAction.startI => ec2Edit env startOp iid (startedMsg iid)
  | CbAction.stopI => ec2Edit env stopOp iid (stoppedMsg iid)
  | CbAction.rebootI => ec2Edit env rebootOp iid (rebootedMsg iid)
  | CbAction.cancelA => [Effect.edit origText []]
  | CbAction.terminateConfirm1 =>
      if admin_only_check cfg uid then
        [Effect.edit (confirmPrompt iid) [tc2Token iid, cancelToken iid]]
      else [Effect.edit adminTermMsg []]
  | CbAction.terminateConfirm2 =>
      if admin_only_check cfg uid then ec2Edit env terminateOp iid (terminatedMsg iid)
      else [Effect.edit adminTermMsg []]
  | CbAction.other => []

/-- Result of one inbound callback event: the effects performed, and whether
the handler raised an uncaught exception. -/
structure CallbackResult where
  effects : List Effect
  crashed : Bool
deriving DecidableEq

/-- `handle_callback` (lines 371-413) wrapped in `user_authorized`
(lines 57-66).  On a callback update `update.message` is `None`, so the
decorator's unauthorized branch (`update.message.reply_text`, line 63)
raises `AttributeError`: modelled as a crash with no effects.  The inner
re-check at line 377 tests the same condition and is therefore dead code,
kept for faithfulness.  A colon-free `query.data` makes the two-name
unpacking at line 380 raise `ValueError`, after `query.answer()` ran. -/
def handle_callback (cfg : Config) (env : Env) (now : Nat) (uid : Nat)
    (cbData origText : String) : CallbackResult :=
  if user_authorized_check cfg uid then
    if user_authorized_check cfg uid then
      match splitFirst cbData.data with
      | Option.none => ⟨[Effect.answerQuery], true⟩
      | Option.some (ac, dc) =>
          let action : String := ⟨ac⟩
          let iid : String := ⟨dc⟩
          ⟨Effect.answerQuery ::
            (log_action env now (toString uid) (callbackCmd action) iid ++
              cbDispatch cfg env uid action iid origText), false⟩
    else ⟨[Effect.answerQuery, Effect.edit unauthorizedMsg []], false⟩
  else ⟨[], true⟩

/-! ### Multi-event runs (the code keeps no state between callbacks, so a run
is the concatenation of independent handler invocations) -/

/-- One inbound callback event. -/
structure CbEvent where
  time : Nat
  uid : Nat
  data : String
  origText : String
deriving DecidableEq

/-- Effects of a sequence of callback events against a fixed configuration
and environment. -/
def runCallbacks (cfg : Config) (env : Env) (evs : List CbEvent) : List Effect :=
  (evs.map (fun e => (handle_callback cfg env e.time e.uid e.data e.origText).effects)).flatten

/-! ### Command handlers (main.py lines 99-368) -/

def startCmdName : String := "/start"

def helpCmdName : String := "/help"

def listCmdName : String := "/list"

def describeCmdName : String := "/describe"

def costCmdName : String := "/cost"

def allocateCmdName : String := "/allocate_eip"

def associateCmdName : String := "/associate_eip"

def releaseCmdName : String := "/release_eip"

def inboundDir : String := "inbound"

def outboundDir : String := "outbound"

/-- Command field logged by `add_ip_to_sg` / `remove_ip_from_sg`:
`f"/add_ip ({direction})"` (lines 292, 339). -/
def addIpCmd (direction : String) : String := "/add_ip (" ++ direction ++ ")"

def removeIpCmd (direction : String) : String := "/remove_ip (" ++ direction ++ ")"

/-- Details field of `/list`: `f"Tag: {tag_filter}"` (line 131). -/
def tagDetail (args : List String) : String :=
  match args with
  | [] => "Tag: None"
  | t :: _ => "Tag: " ++ t

/-- Details field of `/associate_eip`: `f"{alloc_id} -> {iid}"` (line 256). -/
def arrowDetail (alloc iid : String) : String := alloc ++ " -> " ++ iid

/-- Details field of the SG handlers: `f"{sg_id}:{port}"` (lines 292, 339). -/
def sgDetail (sg port : String) : String := sg ++ colonStr ++ port

/-- The no-instance reply of `/list` (lines 161-163). -/
def noInstancesReply (args : List String) : String :=
  match args with
  | [] => noInstancesMsg
  | t :: _ => "No instances found with tag " ++ t

/-- `start` (lines 99-105). -/
def start (cfg : Config) (env : Env) (now : Nat) (uid : Nat) : List Effect :=
  if user_authorized_check cfg uid then
    log_action env now (toString uid) startCmdName "" ++ [Effect.reply welcomeMsg []]
  else [Effect.reply unauthorizedMsg []]

/-- `help_command` (lines 108-124). -/
def help_command (cfg : Config) (env : Env) (now : Nat) (uid : Nat) : List Effect :=
  if user_authorized_check cfg uid then
    log_action env now (toString uid) helpCmdName "" ++ [Effect.reply helpMsg []]
  else [Effect.reply unauthorizedMsg []]

/-- `list_instances` (lines 127-168): audit append, one `describe_instances`
call, then one keyboarded reply per instance (buttons carry the start / stop /
reboot / terminate_confirm1 callback tokens of lines 147-156); on an EC2
exception, one plain error reply.  The tag filtering itself happens inside
EC2, so the instance list is taken from the environment. -/
def list_instances (cfg : Config) (env : Env) (now : Nat) (uid : Nat)
    (args : List String) : List Effect :=
  if user_authorized_check cfg uid then
    log_action env now (toString uid) listCmdName (tagDetail args) ++
      Effect.ec2Call describeOp [] ::
        (if env.ec2Ok then
          (env.instanceIds.map fun iid =>
            Effect.reply (listEntry iid)
              [startToken iid, stopToken iid, rebootToken iid, tc1Token iid]) ++
            (if env.instanceIds.isEmpty then [Effect.reply (noInstancesReply args) []] else [])
        else [Effect.reply listErrorMsg []])
  else [Effect.reply unauthorizedMsg []]

/-- `describe_instance` (lines 171-200): argument shape and `INSTANCE_RE`
check first (after the decorator), then audit append, then the EC2 call. -/
def describe_instance (cfg : Config) (env : Env) (now : Nat) (uid : Nat)
    (args : List String) : List Effect :=
  if user_authorized_check cfg uid then
    match args with
    | [iid] =>
        if instanceReMatch iid then
          log_action env now (toString uid) describeCmdName iid ++
            Effect.ec2Call describeOp [iid] ::
              [Effect.reply (if env.ec2Ok then describeDetails iid else describeErrorMsg) []]
        else [Effect.reply describeUsage []]
    | _ => [Effect.reply describeUsage []]
  else [Effect.reply unauthorizedMsg []]

/-- `cost_command` (lines 203-233). -/
def cost_command (cfg : Config) (env : Env) (now : Nat) (uid : Nat) : List Effect :=
  if user_authorized_check cfg uid then
    log_action env now (toString uid) costCmdName "" ++
      Effect.ec2Call describeOp [] ::
        [Effect.reply (if env.ec2Ok then costReportMsg else costErrorMsg) []]
  else [Effect.reply unauthorizedMsg []]

/-- `allocate_eip` (lines 236-246). -/
def allocate_eip (cfg : Config) (env : Env) (now : Nat) (uid : Nat) : List Effect :=
  if admin_only_check cfg uid then
    log_action env now (toString uid) allocateCmdName "" ++
      Effect.ec2Call allocateOp [] ::
        [Effect.reply (if env.ec2Ok then allocatedMsg else cmdErrorMsg) []]
  else [Effect.reply adminRequiredCmdMsg []]

/-- `associate_eip` (lines 249-263). -/
def associate_eip (cfg : Config) (env : Env) (now : Nat) (uid : Nat)
    (args : List String) : List Effect :=
  if admin_only_check cfg uid then
    match args with
    | [alloc, iid] =>
        if eipAllocReMatch alloc && instanceReMatch iid then
          log_action env now (toString uid) associateCmdName (arrowDetail alloc iid) ++
            Effect.ec2Call associateOp [alloc, iid] ::
              [Effect.reply (if env.ec2Ok then associatedMsg alloc iid else cmdErrorMsg) []]
        else [Effect.reply associateUsage []]
    | _ => [Effect.reply associateUsage []]
  else [Effect.reply adminRequiredCmdMsg []]

/-- `release_eip` (lines 266-277). -/
def release_eip (cfg : Config) (env : Env) (now : Nat) (uid : Nat)
    (args : List String) : List Effect :=
  if admin_only_check cfg uid then
    match args with
    | [alloc] =>
        if eipAllocReMatch alloc then
          log_action env now (toString uid) releaseCmdName alloc ++
            Effect.ec2Call releaseOp [alloc] ::
              [Effect.reply (if env.ec2Ok then releasedMsg alloc else cmdErrorMsg) []]
        else [Effect.reply releaseUsage []]
    | _ => [Effect.reply releaseUsage []]
  else [Effect.reply adminRequiredCmdMsg []]

/-- Direction resolution of the SG handlers (lines 288-290, 335-337): the
third argument, lower-cased, selects outbound; anything else is inbound. -/
def sgDirection (rest : List String) : String :=
  match rest with
  | [d] => if d.toLower == outboundDir then outboundDir else inboundDir
  | _ => inboundDir

/-- `add_ip_to_sg` (lines 280-324): validate shape and `SG_RE`, audit append,
fetch the caller's IP over HTTP, then `int(port)` (a non-numeric port raises
inside the `try`, modelled by `String.toNat?`), then the ingress or egress
authorize call. -/
def add_ip_to_sg (cfg : Config) (env : Env) (now : Nat) (uid : Nat)
    (args : List String) : List Effect :=
  if admin_only_check cfg uid then
    match args with
    | sg :: port :: rest =>
        if sgReMatch sg && rest.length ≤ 1 then
          let dir := sgDirection rest
          log_action env now (toString uid) (addIpCmd dir) (sgDetail sg port) ++
            Effect.httpGet ipifyUrl ::
              (match port.toNat? with
              | Option.none => [Effect.reply sgErrorMsg []]
              | Option.some _ =>
                  Effect.ec2Call (if dir == inboundDir then sgIngressAddOp else sgEgressAddOp)
                      [sg, port] ::
                    [Effect.reply (if env.ec2Ok then ruleAddedMsg sg else sgErrorMsg) []])
        else [Effect.reply addIpUsage []]
    | _ => [Effect.reply addIpUsage []]
  else [Effect.reply adminRequiredCmdMsg []]

/-- `remove_ip_from_sg` (lines 327-368): same shape as `add_ip_to_sg` with
the revoke calls. -/
def remove_ip_from_sg (cfg : Config) (env : Env) (now : Nat) (uid : Nat)
    (args : List String) : List Effect :=
  if admin_only_check cfg uid then
    match args with
    | sg :: port :: rest =>
        if sgReMatch sg && rest.length ≤ 1 then
          let dir := sgDirection rest
          log_action env now (toString uid) (removeIpCmd dir) (sgDetail sg port) ++
            Effect.httpGet ipifyUrl ::
              (match port.toNat? with
              | Option.none => [Effect.reply sgErrorMsg []]
              | Option.some _ =>
                  Effect.ec2Call (if dir == inboundDir then sgIngressRemoveOp else sgEgressRemoveOp)
                      [sg, port] ::
                    [Effect.reply (if env.ec2Ok then ruleRemovedMsg sg else sgErrorMsg) []])
        else [Effect.reply removeIpUsage []]
    | _ => [Effect.reply removeIpUsage []]
  else [Effect.reply adminRequiredCmdMsg []]

/-! ### Helper lemmas -/

lemma mk_data (s : String) : String.mk s.data = s := rfl

lemma data_append (s t : String) : (s ++ t).data = s.data ++ t.data := by
  cases s; cases t; rfl

lemma splitFirst_pre (pre l : List Char) (h : ':' ∉ pre) :
    splitFirst (pre ++ ':' :: l) = Option.some (pre, l) := by
  induction pre with
  | nil => simp [splitFirst]
  | cons c cs ih =>
      have hc : ¬c = ':' := by
        intro hcc
        exact h (by simp [hcc])
      have hcs : ':' ∉ cs := fun hm => h (List.mem_cons_of_mem _ hm)
      simp [splitFirst, hc, ih hcs]

lemma mkCb_data (a iid : String) : (mkCb a iid).data = a.data ++ ':' :: iid.data := by
  simp [mkCb, data_append, colonStr]

lemma splitFirst_mkCb (a iid : String) (h : ':' ∉ a.data) :
    splitFirst ((mkCb a iid).data) = Option.some (a.data, iid.data) := by
  rw [mkCb_data]
  exact splitFirst_pre _ _ h

/-- Unfolding of `handle_callback` on a well-formed `action:payload` event
from an authorized requester. -/
lemma handle_callback_mkCb (cfg : Config) (env : Env) (now uid : Nat)
    (a iid origText : String) (hu : user_authorized_check cfg uid = true)
    (hc : ':' ∉ a.data) :
    handle_callback cfg env now uid (mkCb a iid) origText =
      ⟨Effect.answerQuery ::
        (log_action env now (toString uid) (callbackCmd a) iid ++
          cbDispatch cfg env uid a iid origText), false⟩ := by
  have hsplit : splitFirst ((mkCb a iid).data) = Option.some (a.data, iid.data) :=
    splitFirst_mkCb a iid hc
  simp [handle_callback, hu, hsplit, mk_data]

lemma parse_start : parseCbAction startActionName = CbAction.startI := by decide

lemma parse_cancel : parseCbAction cancelActionName = CbAction.cancelA := by decide

lemma parse_tc1 : parseCbAction tc1ActionName = CbAction.terminateConfirm1 := by decide

lemma parse_tc2 : parseCbAction tc2ActionName = CbAction.terminateConfirm2 := by decide

lemma noColon_start : ':' ∉ startActionName.data := by decide

lemma noColon_cancel : ':' ∉ cancelActionName.data := by decide

lemma noColon_tc1 : ':' ∉ tc1ActionName.data := by decide

lemma noColon_tc2 : ':' ∉ tc2ActionName.data := by decide

lemma cbDispatch_start (cfg : Config) (env : Env) (uid : Nat) (iid orig : String) :
    cbDispatch cfg env uid startActionName iid orig =
      ec2Edit env startOp iid (startedMsg iid) := by
  simp [cbDispatch, parse_start]

lemma cbDispatch_cancel (cfg : Config) (env : Env) (uid : Nat) (iid orig : String) :
    cbDispatch cfg env uid cancelActionName iid orig = [Effect.edit orig []] := by
  simp [cbDispatch, parse_cancel]

lemma cbDispatch_tc1 (cfg : Config) (env : Env) (uid : Nat) (iid orig : String) :
    cbDispatch cfg env uid tc1ActionName iid orig =
      if admin_only_check cfg uid then
        [Effect.edit (confirmPrompt iid) [tc2Token iid, cancelToken iid]]
      else [Effect.edit adminTermMsg []] := by
  simp [cbDispatch, parse_tc1]

lemma cbDispatch_tc2 (cfg : Config) (env : Env) (uid : Nat) (iid orig : String) :
    cbDispatch cfg env uid tc2ActionName iid orig =
      if admin_only_check cfg uid then ec2Edit env terminateOp iid (terminatedMsg iid)
      else [Effect.edit adminTermMsg []] := by
  simp [cbDispatch, parse_tc2]

lemma admin_implies_auth (cfg : Config) (uid : Nat)
    (h : admin_only_check cfg uid = true) : user_authorized_check cfg uid = true := by
  simp only [user_authorized_check, admin_only_check] at *
  simp [List.contains, List.elem_eq_mem] at h
  simp [List.contains, List.elem_eq_mem, h]

lemma terminateCount_append (a b : List Effect) :
    terminateCount (a ++ b) = terminateCount a + terminateCount b := by
  simp [terminateCount, List.filter_append]

lemma auditAttempts_append (a b : List Effect) :
    auditAttempts (a ++ b) = auditAttempts a + auditAttempts b := by
  simp [auditAttempts, List.filter_append]

lemma providerCalls_append (a b : List Effect) :
    providerCalls (a ++ b) = providerCalls a ++ providerCalls b := by
  simp [providerCalls, List.filter_append]

lemma nonAuditEffects_append (a b : List Effect) :
    nonAuditEffects (a ++ b) = nonAuditEffects a ++ nonAuditEffects b := by
  simp [nonAuditEffects, List.filter_append]

lemma terminateCount_log (env : Env) (now : Nat) (u c d : String) :
    terminateCount (log_action env now u c d) = 0 := by
  cases h : env.auditOk <;>
    simp [log_action, putItem, h, terminateCount, isTerminateCall]

lemma auditAttempts_log (env : Env) (now : Nat) (u c d : String) :
    auditAttempts (log_action env now u c d) = 1 := by
  cases h : env.auditOk <;>
    simp [log_action, putItem, h, auditAttempts, isAuditAttempt]

lemma providerCalls_log (env : Env) (now : Nat) (u c d : String) :
    providerCalls (log_action env now u c d) = [] := by
  cases h : env.auditOk <;>
    simp [log_action, putItem, h, providerCalls, isProviderCall]

lemma nonAuditEffects_log (env : Env) (now : Nat) (u c d : String) :
    nonAuditEffects (log_action env now u c d) = [] := by
  cases h : env.auditOk <;>
    simp [log_action, putItem, h, nonAuditEffects, isAuditAttempt]

lemma auditBeforeEc2_log (env : Env) (now : Nat) (u c d : String) (rest : List Effect) :
    auditBeforeEc2 (log_action env now u c d ++ rest) = true := by
  cases h : env.auditOk <;>
    simp [log_action, putItem, h, auditBeforeEc2, isAuditAttempt, isProviderCall]

/-! ### Concrete inputs used by witnesses and counterexamples -/

/-- A well-formed instance id (the spec's scenario id). -/
def demoIid : String := "i-0123456789abcdef0"

/-- A well-formed allocation id. -/
def demoAlloc : String := "eipalloc-0123456789a"

/-- A malformed resource id. -/
def bogusId : String := "garbage"

/-- Environment with EC2 and the audit sink both available. -/
def demoEnv : Env := ⟨true, true, []⟩

/-- Configuration with one admin (id 7) and no standard users. -/
def cfgAdmin : Config := ⟨[7], []⟩

/-- Configuration with one admin (id 7) and one standard user (id 5). -/
def cfgMixed : Config := ⟨[7], [5]⟩

/-- Original text of the prompt message a callback edits. -/
def origMsg : String := "Name: web ID: i-0123456789abcdef0 State: running"

/-- A numeric port argument. -/
def demoPort : String := "22"

/-! ### More helper lemmas -/

lemma auditAttempts_answer_cons (l : List Effect) :
    auditAttempts (Effect.answerQuery :: l) = auditAttempts l := by
  simp [auditAttempts, List.filter_cons, isAuditAttempt]

lemma auditAttempts_cbDispatch (cfg : Config) (env : Env) (uid : Nat)
    (act iid orig : String) :
    auditAttempts (cbDispatch cfg env uid act iid orig) = 0 := by
  cases h : parseCbAction act <;>
    by_cases ha : admin_only_check cfg uid = true <;>
      simp [cbDispatch, h, ha, ec2Edit, auditAttempts, isAuditAttempt]

lemma filter_audit_listEntries (l : List String) :
    List.filter isAuditAttempt (l.map fun iid =>
      Effect.reply (listEntry iid)
        [startToken iid, stopToken iid, rebootToken iid, tc1Token iid]) = [] := by
  induction l with
  | nil => rfl
  | cons x xs ih => simp [List.filter_cons, isAuditAttempt, ih]

lemma cbDispatch_env (cfg : Config) (e au au' : Bool) (ids ids' : List String)
    (uid : Nat) (act iid orig : String) :
    cbDispatch cfg ⟨e, au, ids⟩ uid act iid orig =
      cbDispatch cfg ⟨e, au', ids'⟩ uid act iid orig := by
  cases h : parseCbAction act <;> simp [cbDispatch, h, ec2Edit]

lemma nonAudit_answer_log (env : Env) (now : Nat) (u c d : String) (rest : List Effect) :
    nonAuditEffects (Effect.answerQuery :: (log_action env now u c d ++ rest)) =
      Effect.answerQuery :: nonAuditEffects rest := by
  cases h : env.auditOk <;>
    simp [log_action, putItem, h, nonAuditEffects, isAuditAttempt]

lemma nonAudit_log_append (env : Env) (now : Nat) (u c d : String) (rest : List Effect) :
    nonAuditEffects (log_action env now u c d ++ rest) = nonAuditEffects rest := by
  cases h : env.auditOk <;>
    simp [log_action, putItem, h, nonAuditEffects, isAuditAttempt]

/-- The trace of an admin-confirmed terminate callback. -/
lemma tc2_admin_trace (cfg : Config) (env : Env) (now uid : Nat) (iid orig : String)
    (ha : admin_only_check cfg uid = true) :
    handle_callback cfg env now uid (tc2Token iid) orig =
      ⟨Effect.answerQuery ::
        (log_action env now (toString uid) (callbackCmd tc2ActionName) iid ++
          ec2Edit env terminateOp iid (terminatedMsg iid)), false⟩ := by
  have hu : user_authorized_check cfg uid = true := admin_implies_auth cfg uid ha
  have hcb := handle_callback_mkCb cfg env now uid tc2ActionName iid orig hu noColon_tc2
  simp only [tc2Token] at *
  rw [hcb, cbDispatch_tc2, if_pos ha]

/-- The trace of an admin's first-step terminate callback. -/
lemma tc1_admin_trace (cfg : Config) (env : Env) (now uid : Nat) (iid orig : String)
    (ha : admin_only_check cfg uid = true) :
    handle_callback cfg env now uid (tc1Token iid) orig =
      ⟨Effect.answerQuery ::
        (log_action env now (toString uid) (callbackCmd tc1ActionName) iid ++
          [Effect.edit (confirmPrompt iid) [tc2Token iid, cancelToken iid]]), false⟩ := by
  have hu : user_authorized_check cfg uid = true := admin_implies_auth cfg uid ha
  have hcb := handle_callback_mkCb cfg env now uid tc1ActionName iid orig hu noColon_tc1
  simp only [tc1Token] at *
  rw [hcb, cbDispatch_tc1, if_pos ha]

lemma terminateCount_tc2_admin (cfg : Config) (env : Env) (now uid : Nat)
    (iid orig : String) (ha : admin_only_check cfg uid = true) :
    terminateCount (handle_callback cfg env now uid (tc2Token iid) orig).effects = 1 := by
  rw [tc2_admin_trace cfg env now uid iid orig ha]
  cases h : env.auditOk <;>
    simp [log_action, putItem, h, ec2Edit, terminateCount, isTerminateCall]

/-! ### Claims -/

lemma resolveRole_of_admin (cfg : Config) (uid : Nat) (h : uid ∈ cfg.adminUsers) :
    resolveRole cfg uid = Role.admin := by
  simp [resolveRole, h]

lemma resolveRole_of_standard (cfg : Config) (uid : Nat) (h1 : uid ∉ cfg.adminUsers)
    (h2 : uid ∈ cfg.standardUsers) : resolveRole cfg uid = Role.standard := by
  simp [resolveRole, h1, h2]

lemma resolveRole_of_none (cfg : Config) (uid : Nat) (h1 : uid ∉ cfg.adminUsers)
    (h2 : uid ∉ cfg.standardUsers) : resolveRole cfg uid = Role.none := by
  simp [resolveRole, h1, h2]

lemma admin_only_false (cfg : Config) (uid : Nat) (h : uid ∉ cfg.adminUsers) :
    admin_only_check cfg uid = false := by
  simp [admin_only_check]
  exact h

lemma user_auth_false (cfg : Config) (uid : Nat) (h1 : uid ∉ cfg.adminUsers)
    (h2 : uid ∉ cfg.standardUsers) : user_authorized_check cfg uid = false := by
  simp [user_authorized_check]
  exact ⟨h1, h2⟩

lemma user_auth_of_std (cfg : Config) (uid : Nat) (h : uid ∈ cfg.standardUsers) :
    user_authorized_check cfg uid = true := by
  simp [user_authorized_check]
  exact Or.inr h

/-- Claim C2: whenever the resolved role of a requester is strictly below the
minimum role an action requires, the code's authorization guard denies; in
particular a standard-role requester's `terminate_confirm2` callback is
answered with the admin-access-required edit, makes no provider call, and
appends one audit record. -/
theorem claim_C2 :
    (∀ (cfg : Config) (uid : Nat) (a : ActionKind),
        roleRank (resolveRole cfg uid) < roleRank (requiredRole a) →
        codeGuard cfg uid a = false) ∧
    (∀ (cfg : Config) (env : Env) (now uid : Nat) (iid orig : String),
        cfg.standardUsers.contains uid = true →
        cfg.adminUsers.contains uid = false →
        providerCalls (handle_callback cfg env now uid (tc2Token iid) orig).effects = [] ∧
        Effect.edit adminTermMsg [] ∈
          (handle_callback cfg env now uid (tc2Token iid) orig).effects ∧
        auditAttempts (handle_callback cfg env now uid (tc2Token iid) orig).effects = 1) := by
  constructor
  · intro cfg uid a h
    by_cases ha : uid ∈ cfg.adminUsers
    · rw [resolveRole_of_admin cfg uid ha] at h
      cases a <;> simp [requiredRole, roleRank] at h
    · by_cases hs : uid ∈ cfg.standardUsers
      · rw [resolveRole_of_standard cfg uid ha hs] at h
        cases a <;> simp [requiredRole, roleRank] at h <;>
          simp [codeGuard, admin_only_false cfg uid ha]
      · rw [resolveRole_of_none cfg uid ha hs] at h
        cases a <;>
          simp [codeGuard, admin_only_false cfg uid ha, user_auth_false cfg uid ha hs]
  · intro cfg env now uid iid orig hs ha
    have hs' : uid ∈ cfg.standardUsers := by simpa using hs
    have ha' : uid ∉ cfg.adminUsers := by simpa using ha
    have hu : user_authorized_check cfg uid = true := user_auth_of_std cfg uid hs'
    have hadm : admin_only_check cfg uid = false := admin_only_false cfg uid ha'
    have hcb := handle_callback_mkCb cfg env now uid tc2ActionName iid orig hu noColon_tc2
    simp only [tc2Token]
    rw [hcb, cbDispatch_tc2]
    rw [if_neg (by simp [hadm])]
    cases h : env.auditOk <;>
      simp [log_action, putItem, h, providerCalls, isProviderCall,
        auditAttempts, isAuditAttempt]

/-- Witness for claim C2: a standard user (id 5, not an admin) is denied
`instance_terminate`, and their confirm callback performs no provider call. -/
theorem claim_C2_witness :
    codeGuard cfgMixed 5 ActionKind.instance_terminate = false ∧
    providerCalls (handle_callback cfgMixed demoEnv 0 5 (tc2Token demoIid) origMsg).effects
      = [] := by
  constructor
  · exact claim_C2.1 cfgMixed 5 ActionKind.instance_terminate (by decide)
  · exact (claim_C2.2 cfgMixed demoEnv 0 5 demoIid origMsg (by decide) (by decide)).1

/-- Claim C7: the audit-append boundary swallows sink failures: with the
sink down `log_action` degrades to a single fallback process-log line and
returns normally, and the non-audit effects (provider calls, replies, edits)
and crash status of the handlers are identical whether or not the sink is
available. -/
theorem claim_C7 :
    (∀ (e : Bool) (ids : List String) (now : Nat) (u c d : String),
        log_action ⟨e, false, ids⟩ now u c d = [Effect.fallbackLog auditFailMsg]) ∧
    (∀ (cfg : Config) (e : Bool) (ids : List String) (now uid : Nat) (cb orig : String),
        nonAuditEffects (handle_callback cfg ⟨e, false, ids⟩ now uid cb orig).effects =
          nonAuditEffects (handle_callback cfg ⟨e, true, ids⟩ now uid cb orig).effects ∧
        (handle_callback cfg ⟨e, false, ids⟩ now uid cb orig).crashed =
          (handle_callback cfg ⟨e, true, ids⟩ now uid cb orig).crashed) ∧
    (∀ (cfg : Config) (e : Bool) (ids : List String) (now uid : Nat) (args : List String),
        nonAuditEffects (release_eip cfg ⟨e, false, ids⟩ now uid args) =
          nonAuditEffects (release_eip cfg ⟨e, true, ids⟩ now uid args)) := by
  refine ⟨?_, ?_, ?_⟩
  · intro e ids now u c d
    simp [log_action, putItem]
  · intro cfg e ids now uid cb orig
    by_cases hu : user_authorized_check cfg uid = true
    · cases hsp : splitFirst cb.data with
      | none => simp [handle_callback, hu, hsp]
      | some p =>
          obtain ⟨ac, dc⟩ := p
          simp only [handle_callback, hu, hsp, if_true]
          constructor
          · rw [nonAudit_answer_log, nonAudit_answer_log,
              cbDispatch_env cfg e false true ids ids]
          · trivial
    · simp [handle_callback, hu]
  · intro cfg e ids now uid args
    by_cases ha : admin_only_check cfg uid = true
    · match args with
      | [] => simp [release_eip, ha]
      | [a] =>
          by_cases hm : eipAllocReMatch a = true
          · simp only [release_eip, ha, hm, if_true]
            rw [nonAudit_log_append, nonAudit_log_append]
          · simp [release_eip, ha, hm]
      | a :: b :: rest => simp [release_eip, ha]
    · simp [release_eip, ha]

lemma auditBeforeEc2_replies (t : String) (b : List String) :
    auditBeforeEc2 [Effect.reply t b] = true := by
  simp [auditBeforeEc2, isAuditAttempt, isProviderCall]

/-- Claim C9: in every command handler and in the callback handler, the
audit-log append is attempted (durably or via the fallback) before any EC2
client call is made, on every input and in every environment. -/
theorem claim_C9 :
    (∀ (cfg : Config) (env : Env) (now uid : Nat),
        auditBeforeEc2 (start cfg env now uid) = true) ∧
    (∀ (cfg : Config) (env : Env) (now uid : Nat),
        auditBeforeEc2 (help_command cfg env now uid) = true) ∧
    (∀ (cfg : Config) (env : Env) (now uid : Nat) (args : List String),
        auditBeforeEc2 (list_instances cfg env now uid args) = true) ∧
    (∀ (cfg : Config) (env : Env) (now uid : Nat) (args : List String),
        auditBeforeEc2 (describe_instance cfg env now uid args) = true) ∧
    (∀ (cfg : Config) (env : Env) (now uid : Nat),
        auditBeforeEc2 (cost_command cfg env now uid) = true) ∧
    (∀ (cfg : Config) (env : Env) (now uid : Nat),
        auditBeforeEc2 (allocate_eip cfg env now uid) = true) ∧
    (∀ (cfg : Config) (env : Env) (now uid : Nat) (args : List String),
        auditBeforeEc2 (associate_eip cfg env now uid args) = true) ∧
    (∀ (cfg : Config) (env : Env) (now uid : Nat) (args : List String),
        auditBeforeEc2 (release_eip cfg env now uid args) = true) ∧
    (∀ (cfg : Config) (env : Env) (now uid : Nat) (args : List String),
        auditBeforeEc2 (add_ip_to_sg cfg env now uid args) = true) ∧
    (∀ (cfg : Config) (env : Env) (now uid : Nat) (args : List String),
        auditBeforeEc2 (remove_ip_from_sg cfg env now uid args) = true) ∧
    (∀ (cfg : Config) (env : Env) (now uid : Nat) (cb orig : String),
        auditBeforeEc2 (handle_callback cfg env now uid cb orig).effects = true) := by
  refine ⟨?_, ?_, ?_, ?_, ?_, ?_, ?_, ?_, ?_, ?_, ?_⟩
  · intro cfg env now uid
    by_cases hu : user_authorized_check cfg uid = true <;>
      simp [start, hu, auditBeforeEc2_log, auditBeforeEc2_replies]
  · intro cfg env now uid
    by_cases hu : user_authorized_check cfg uid = true <;>
      simp [help_command, hu, auditBeforeEc2_log, auditBeforeEc2_replies]
  · intro cfg env now uid args
    by_cases hu : user_authorized_check cfg uid = true <;>
      simp [list_instances, hu, auditBeforeEc2_log, auditBeforeEc2_replies]
  · intro cfg env now uid args
    by_cases hu : user_authorized_check cfg uid = true
    · match args with
      | [] => simp [describe_instance, hu, auditBeforeEc2_replies]
      | [a] =>
          by_cases hm : instanceReMatch a = true <;>
            simp [describe_instance, hu, hm, auditBeforeEc2_log, auditBeforeEc2_replies]
      | a :: b :: rest => simp [describe_instance, hu, auditBeforeEc2_replies]
    · simp [describe_instance, hu, auditBeforeEc2_replies]
  · intro cfg env now uid
    by_cases hu : user_authorized_check cfg uid = true <;>
      simp [cost_command, hu, auditBeforeEc2_log, auditBeforeEc2_replies]
  · intro cfg env now uid
    by_cases hu : admin_only_check cfg uid = true <;>
      simp [allocate_eip, hu, auditBeforeEc2_log, auditBeforeEc2_replies]
  · intro cfg env now uid args
    by_cases hu : admin_only_check cfg uid = true
    · match args with
      | [] => simp [associate_eip, hu, auditBeforeEc2_replies]
      | [a] => simp [associate_eip, hu, auditBeforeEc2_replies]
      | [a, b] =>
          by_cases hm : (eipAllocReMatch a && instanceReMatch b) = true <;>
            simp [associate_eip, hu, hm, auditBeforeEc2_log, auditBeforeEc2_replies]
      | a :: b :: c :: rest => simp [associate_eip, hu, auditBeforeEc2_replies]
    · simp [associate_eip, hu, auditBeforeEc2_replies]
  · intro cfg env now uid args
    by_cases hu : admin_only_check cfg uid = true
    · match args with
      | [] => simp [release_eip, hu, auditBeforeEc2_replies]
      | [a] =>
          by_cases hm : eipAllocReMatch a = true <;>
            simp [release_eip, hu, hm, auditBeforeEc2_log, auditBeforeEc2_replies]
      | a :: b :: rest => simp [release_eip, hu, auditBeforeEc2_replies]
    · simp [release_eip, hu, auditBeforeEc2_replies]
  · intro cfg env now uid args
    by_cases hu : admin_only_check cfg uid = true
    · match args with
      | [] => simp [add_ip_to_sg, hu, auditBeforeEc2_replies]
      | [a] => simp [add_ip_to_sg, hu, auditBeforeEc2_replies]
      | sg :: port :: rest =>
          by_cases hm : (sgReMatch sg && rest.length ≤ 1) = true
          · cases hp : port.toNat? <;>
              simp [add_ip_to_sg, hu, hm, hp, auditBeforeEc2_log, auditBeforeEc2_replies]
          · simp [add_ip_to_sg, hu, hm, auditBeforeEc2_replies]
    · simp [add_ip_to_sg, hu, auditBeforeEc2_replies]
  · intro cfg env now uid args
    by_cases hu : admin_only_check cfg uid = true
    · match args with
      | [] => simp [remove_ip_from_sg, hu, auditBeforeEc2_replies]
      | [a] => simp [remove_ip_from_sg, hu, auditBeforeEc2_replies]
      | sg :: port :: rest =>
          by_cases hm : (sgReMatch sg && rest.length ≤ 1) = true
          · cases hp : port.toNat? <;>
              simp [remove_ip_from_sg, hu, hm, hp, auditBeforeEc2_log, auditBeforeEc2_replies]
          · simp [remove_ip_from_sg, hu, hm, auditBeforeEc2_replies]
    · simp [remove_ip_from_sg, hu, auditBeforeEc2_replies]
  · intro cfg env now uid cb orig
    by_cases hu : user_authorized_check cfg uid = true
    · cases hsp : splitFirst cb.data with
      | none =>
          simp [handle_callback, hu, hsp, auditBeforeEc2, isAuditAttempt, isProviderCall]
      | some p =>
          obtain ⟨ac, dc⟩ := p
          simp [handle_callback, hu, hsp, auditBeforeEc2, isAuditAttempt,
            isProviderCall, auditBeforeEc2_log]
    · simp [handle_callback, hu, auditBeforeEc2]

/-- Claim C10: a cancel callback from an authorized requester only answers
the query, appends the audit record, and edits the prompt back to the
original message text; it makes no EC2 call of any kind. -/
theorem claim_C10 (cfg : Config) (env : Env) (now uid : Nat) (iid orig : String)
    (hu : user_authorized_check cfg uid = true) :
    handle_callback cfg env now uid (cancelToken iid) orig =
      ⟨Effect.answerQuery ::
        (log_action env now (toString uid) (callbackCmd cancelActionName) iid ++
          [Effect.edit orig []]), false⟩ ∧
    providerCalls (handle_callback cfg env now uid (cancelToken iid) orig).effects = [] := by
  have hcb := handle_callback_mkCb cfg env now uid cancelActionName iid orig hu noColon_cancel
  simp only [cancelToken] at *
  rw [hcb, cbDispatch_cancel]
  refine ⟨rfl, ?_⟩
  cases h : env.auditOk <;>
    simp [log_action, putItem, h, providerCalls, isProviderCall]

/-- Witness for claim C10 at the admin user of the source configuration. -/
theorem claim_C10_witness :
    handle_callback cfgAdmin demoEnv 3 7 (cancelToken demoIid) origMsg =
      ⟨Effect.answerQuery ::
        (log_action demoEnv 3 (toString 7) (callbackCmd cancelActionName) demoIid ++
          [Effect.edit origMsg []]), false⟩ ∧
    providerCalls (handle_callback cfgAdmin demoEnv 3 7 (cancelToken demoIid) origMsg).effects
      = [] :=
  claim_C10 cfgAdmin demoEnv 3 7 demoIid origMsg (by decide)

/-- Counterexample to claim C1: the code keeps no confirmation state, so the
admin's confirm token used twice invokes the provider terminate call twice —
the second use (time 1) executes again instead of resolving to NotFound. -/
theorem claim_C1_counterexample :
    terminateCount (runCallbacks cfgAdmin demoEnv
        [⟨0, 7, tc2Token demoIid, origMsg⟩, ⟨1, 7, tc2Token demoIid, origMsg⟩]) = 2 ∧
    terminateCount
        (handle_callback cfgAdmin demoEnv 1 7 (tc2Token demoIid) origMsg).effects = 1 := by
  decide

/-- Claim C1 as amended: every admin use of the confirm token triggers the
provider terminate call exactly once, so n uses trigger it n times: the code
holds no ticket, consumes nothing, and never resolves a reused token to
NotFound. -/
theorem claim_C1_amended (cfg : Config) (env : Env) (now now' uid : Nat)
    (iid orig : String) (ha : admin_only_check cfg uid = true) :
    terminateCount (handle_callback cfg env now uid (tc2Token iid) orig).effects = 1 ∧
    terminateCount (runCallbacks cfg env
        [⟨now, uid, tc2Token iid, orig⟩, ⟨now', uid, tc2Token iid, orig⟩]) = 2 := by
  have h1 := terminateCount_tc2_admin cfg env now uid iid orig ha
  have h2 := terminateCount_tc2_admin cfg env now' uid iid orig ha
  refine ⟨h1, ?_⟩
  simp only [runCallbacks, List.map_cons, List.map_nil, List.flatten]
  rw [List.append_nil, terminateCount_append, h1, h2]

/-- Witness for the amended claim C1 at the demo admin and instance id. -/
theorem claim_C1_witness :
    terminateCount
        (handle_callback cfgAdmin demoEnv 0 7 (tc2Token demoIid) origMsg).effects = 1 :=
  (claim_C1_amended cfgAdmin demoEnv 0 1 7 demoIid origMsg (by decide)).1

/-- Counterexample to claim C4: a terminate confirmation issued at time 0 and
confirmed at time 130 — past the 120-second window — still invokes the
provider terminate call instead of resolving to Expired. -/
theorem claim_C4_counterexample :
    120 < 130 - 0 ∧
    terminateCount (runCallbacks cfgAdmin demoEnv
        [⟨0, 7, tc1Token demoIid, origMsg⟩, ⟨130, 7, tc2Token demoIid, origMsg⟩]) = 1 ∧
    terminateCount
        (handle_callback cfgAdmin demoEnv 130 7 (tc2Token demoIid) origMsg).effects = 1 := by
  decide

/-- Claim C4 as amended: the code has no expiry at all — an admin confirm
arriving any amount of time after the prompt, in particular more than 120
seconds later, still invokes the provider terminate call. -/
theorem claim_C4_amended (cfg : Config) (env : Env) (uid : Nat) (iid orig : String)
    (createdAt t : Nat) (ha : admin_only_check cfg uid = true)
    (_hl : 120 < t - createdAt) :
    terminateCount (handle_callback cfg env t uid (tc2Token iid) orig).effects = 1 ∧
    (handle_callback cfg env t uid (tc2Token iid) orig).crashed = false := by
  refine ⟨terminateCount_tc2_admin cfg env t uid iid orig ha, ?_⟩
  rw [tc2_admin_trace cfg env t uid iid orig ha]

/-- Witness for the amended claim C4: prompt at time 0, confirm at 130. -/
theorem claim_C4_witness :
    terminateCount
        (handle_callback cfgAdmin demoEnv 130 7 (tc2Token demoIid) origMsg).effects = 1 :=
  (claim_C4_amended cfgAdmin demoEnv 7 demoIid origMsg 0 130 (by decide) (by decide)).1

/-- Counterexample to claim C5: reissuing the first step produces a prompt
carrying the identical confirm token (the token is a pure function of the
instance id), and that earlier token, confirmed afterwards, still executes
the terminate call instead of resolving to NotFound. -/
theorem claim_C5_counterexample :
    Effect.edit (confirmPrompt demoIid) [tc2Token demoIid, cancelToken demoIid] ∈
      (handle_callback cfgAdmin demoEnv 0 7 (tc1Token demoIid) origMsg).effects ∧
    Effect.edit (confirmPrompt demoIid) [tc2Token demoIid, cancelToken demoIid] ∈
      (handle_callback cfgAdmin demoEnv 5 7 (tc1Token demoIid) origMsg).effects ∧
    terminateCount
        (handle_callback cfgAdmin demoEnv 10 7 (tc2Token demoIid) origMsg).effects = 1 := by
  decide

/-- Claim C5 as amended: the code stores no per-(resource, action) ticket;
the first-step prompt always carries the same confirm token for a given
instance id, whatever prompts came before, and an admin's confirm token
always executes. -/
theorem claim_C5_amended (cfg : Config) (env : Env) (t t' now uid : Nat)
    (iid orig : String) (ha : admin_only_check cfg uid = true) :
    Effect.edit (confirmPrompt iid) [tc2Token iid, cancelToken iid] ∈
      (handle_callback cfg env t uid (tc1Token iid) orig).effects ∧
    Effect.edit (confirmPrompt iid) [tc2Token iid, cancelToken iid] ∈
      (handle_callback cfg env t' uid (tc1Token iid) orig).effects ∧
    terminateCount (handle_callback cfg env now uid (tc2Token iid) orig).effects = 1 := by
  refine ⟨?_, ?_, terminateCount_tc2_admin cfg env now uid iid orig ha⟩
  · rw [tc1_admin_trace cfg env t uid iid orig ha]
    cases h : env.auditOk <;> simp [log_action, putItem, h]
  · rw [tc1_admin_trace cfg env t' uid iid orig ha]
    cases h : env.auditOk <;> simp [log_action, putItem, h]

/-- Witness for the amended claim C5 at the demo admin and instance id. -/
theorem claim_C5_witness :
    Effect.edit (confirmPrompt demoIid) [tc2Token demoIid, cancelToken demoIid] ∈
      (handle_callback cfgAdmin demoEnv 0 7 (tc1Token demoIid) origMsg).effects :=
  (claim_C5_amended cfgAdmin demoEnv 0 5 10 7 demoIid origMsg (by decide)).1

/-- Counterexample to claim C6: a syntactically valid confirm token that was
never issued (the run contains no prior first step) does not resolve to
NotFound — the admin's callback invokes the provider terminate call. -/
theorem claim_C6_counterexample :
    (handle_callback cfgAdmin demoEnv 0 7 (tc2Token demoIid) origMsg).crashed = false ∧
    terminateCount
        (runCallbacks cfgAdmin demoEnv [⟨0, 7, tc2Token demoIid, origMsg⟩]) = 1 := by
  decide

/-- Claim C6 as amended: a never-issued but well-formed confirm token never
crashes the dispatcher for an authorized requester; from an admin it executes
the terminate call (there is no NotFound resolution), and from a non-admin it
is denied with the admin-access-required edit and no provider call. -/
theorem claim_C6_amended (cfg : Config) (env : Env) (now uid : Nat) (iid orig : String)
    (hu : user_authorized_check cfg uid = true) :
    (handle_callback cfg env now uid (tc2Token iid) orig).crashed = false ∧
    (admin_only_check cfg uid = true →
      terminateCount (handle_callback cfg env now uid (tc2Token iid) orig).effects = 1) ∧
    (admin_only_check cfg uid = false →
      providerCalls (handle_callback cfg env now uid (tc2Token iid) orig).effects = [] ∧
      Effect.edit adminTermMsg [] ∈
        (handle_callback cfg env now uid (tc2Token iid) orig).effects) := by
  have hcb := handle_callback_mkCb cfg env now uid tc2ActionName iid orig hu noColon_tc2
  simp only [tc2Token]
  refine ⟨by simp [hcb], ?_, ?_⟩
  · intro ha
    have h := terminateCount_tc2_admin cfg env now uid iid orig ha
    simpa [tc2Token] using h
  · intro ha
    rw [hcb, cbDispatch_tc2, if_neg (by simp [ha])]
    cases h : env.auditOk <;>
      simp [log_action, putItem, h, providerCalls, isProviderCall]

/-- Witness for the amended claim C6: an unissued valid token from the admin
does not crash the handler. -/
theorem claim_C6_witness :
    (handle_callback cfgAdmin demoEnv 2 7 (tc2Token demoIid) origMsg).crashed = false :=
  (claim_C6_amended cfgAdmin demoEnv 2 7 demoIid origMsg (by decide)).1

/-- Counterexample to claim C3: a denied attempt (standard user 5 issuing the
admin-only `/release_eip` with a valid allocation id) produces zero audit
records, not exactly one denial record — the decorator replies and returns
without calling `log_action`, and the audit record has no outcome field at
all. -/
theorem claim_C3_counterexample :
    auditAttempts (release_eip cfgMixed demoEnv 0 5 [demoAlloc]) = 0 ∧
    release_eip cfgMixed demoEnv 0 5 [demoAlloc] = [Effect.reply adminRequiredCmdMsg []] := by
  decide

/-- Claim C3 as amended: in every command handler, a request that passes its
guard and argument validation attempts exactly one audit append (a durable
record when the sink is up, one fallback line otherwise), before any provider
call and whether the provider call then succeeds or fails, while a
guard-denied command attempt appends nothing; every authorized callback event
with well-formed data — including the denied non-admin terminate callback,
whose log runs before its admin check — likewise appends exactly one, before
any provider call; and the durable record carries only timestamp, user id,
command and details, with no outcome field. -/
theorem claim_C3_amended :
    (∀ (cfg : Config) (env : Env) (now uid : Nat),
        (user_authorized_check cfg uid = true →
          auditAttempts (start cfg env now uid) = 1 ∧
          auditBeforeEc2 (start cfg env now uid) = true) ∧
        (user_authorized_check cfg uid = false →
          auditAttempts (start cfg env now uid) = 0)) ∧
    (∀ (cfg : Config) (env : Env) (now uid : Nat),
        (user_authorized_check cfg uid = true →
          auditAttempts (help_command cfg env now uid) = 1 ∧
          auditBeforeEc2 (help_command cfg env now uid) = true) ∧
        (user_authorized_check cfg uid = false →
          auditAttempts (help_command cfg env now uid) = 0)) ∧
    (∀ (cfg : Config) (env : Env) (now uid : Nat) (args : List String),
        (user_authorized_check cfg uid = true →
          auditAttempts (list_instances cfg env now uid args) = 1 ∧
          auditBeforeEc2 (list_instances cfg env now uid args) = true) ∧
        (user_authorized_check cfg uid = false →
          auditAttempts (list_instances cfg env now uid args) = 0)) ∧
    (∀ (cfg : Config) (env : Env) (now uid : Nat) (a : String) (args : List String),
        (user_authorized_check cfg uid = true → instanceReMatch a = true →
          auditAttempts (describe_instance cfg env now uid [a]) = 1 ∧
          auditBeforeEc2 (describe_instance cfg env now uid [a]) = true) ∧
        (user_authorized_check cfg uid = false →
          auditAttempts (describe_instance cfg env now uid args) = 0)) ∧
    (∀ (cfg : Config) (env : Env) (now uid : Nat),
        (user_authorized_check cfg uid = true →
          auditAttempts (cost_command cfg env now uid) = 1 ∧
          auditBeforeEc2 (cost_command cfg env now uid) = true) ∧
        (user_authorized_check cfg uid = false →
          auditAttempts (cost_command cfg env now uid) = 0)) ∧
    (∀ (cfg : Config) (env : Env) (now uid : Nat),
        (admin_only_check cfg uid = true →
          auditAttempts (allocate_eip cfg env now uid) = 1 ∧
          auditBeforeEc2 (allocate_eip cfg env now uid) = true) ∧
        (admin_only_check cfg uid = false →
          auditAttempts (allocate_eip cfg env now uid) = 0)) ∧
    (∀ (cfg : Config) (env : Env) (now uid : Nat) (a b : String) (args : List String),
        (admin_only_check cfg uid = true → (eipAllocReMatch a && instanceReMatch b) = true →
          auditAttempts (associate_eip cfg env now uid [a, b]) = 1 ∧
          auditBeforeEc2 (associate_eip cfg env now uid [a, b]) = true) ∧
        (admin_only_check cfg uid = false →
          auditAttempts (associate_eip cfg env now uid args) = 0)) ∧
    (∀ (cfg : Config) (env : Env) (now uid : Nat) (alloc : String) (args : List String),
        (admin_only_check cfg uid = true → eipAllocReMatch alloc = true →
          auditAttempts (release_eip cfg env now uid [alloc]) = 1 ∧
          auditBeforeEc2 (release_eip cfg env now uid [alloc]) = true) ∧
        (admin_only_check cfg uid = false →
          auditAttempts (release_eip cfg env now uid args) = 0)) ∧
    (∀ (cfg : Config) (env : Env) (now uid : Nat) (sg port : String)
        (rest args : List String),
        (admin_only_check cfg uid = true → sgReMatch sg = true → rest.length ≤ 1 →
          auditAttempts (add_ip_to_sg cfg env now uid (sg :: port :: rest)) = 1 ∧
          auditBeforeEc2 (add_ip_to_sg cfg env now uid (sg :: port :: rest)) = true) ∧
        (admin_only_check cfg uid = false →
          auditAttempts (add_ip_to_sg cfg env now uid args) = 0)) ∧
    (∀ (cfg : Config) (env : Env) (now uid : Nat) (sg port : String)
        (rest args : List String),
        (admin_only_check cfg uid = true → sgReMatch sg = true → rest.length ≤ 1 →
          auditAttempts (remove_ip_from_sg cfg env now uid (sg :: port :: rest)) = 1 ∧
          auditBeforeEc2 (remove_ip_from_sg cfg env now uid (sg :: port :: rest)) = true) ∧
        (admin_only_check cfg uid = false →
          auditAttempts (remove_ip_from_sg cfg env now uid args) = 0)) ∧
    (∀ (cfg : Config) (env : Env) (now uid : Nat) (cb orig : String) (ac dc : List Char),
        user_authorized_check cfg uid = true →
        splitFirst cb.data = Option.some (ac, dc) →
        auditAttempts (handle_callback cfg env now uid cb orig).effects = 1 ∧
        auditBeforeEc2 (handle_callback cfg env now uid cb orig).effects = true) ∧
    (∀ (cfg : Config) (e : Bool) (ids : List String) (now uid : Nat) (alloc : String),
        admin_only_check cfg uid = true → eipAllocReMatch alloc = true →
        List.filter isAuditAttempt (release_eip cfg ⟨e, true, ids⟩ now uid [alloc]) =
          [Effect.auditPut now (toString uid) releaseCmdName alloc]) := by
  refine ⟨?_, ?_, ?_, ?_, ?_, ?_, ?_, ?_, ?_, ?_, ?_, ?_⟩
  · intro cfg env now uid
    refine ⟨fun hu => ⟨?_, ?_⟩, fun hu => ?_⟩
    · cases h : env.auditOk <;>
        simp [start, hu, log_action, putItem, h, auditAttempts, isAuditAttempt]
    · simp [start, hu, auditBeforeEc2_log]
    · simp [start, hu, auditAttempts, isAuditAttempt]
  · intro cfg env now uid
    refine ⟨fun hu => ⟨?_, ?_⟩, fun hu => ?_⟩
    · cases h : env.auditOk <;>
        simp [help_command, hu, log_action, putItem, h, auditAttempts, isAuditAttempt]
    · simp [help_command, hu, auditBeforeEc2_log]
    · simp [help_command, hu, auditAttempts, isAuditAttempt]
  · intro cfg env now uid args
    refine ⟨fun hu => ⟨?_, ?_⟩, fun hu => ?_⟩
    · cases h : env.auditOk <;> cases he : env.ec2Ok <;>
        cases hie : env.instanceIds.isEmpty <;>
          simp [list_instances, hu, log_action, putItem, h, he, hie, auditAttempts,
            isAuditAttempt, List.filter_append, filter_audit_listEntries]
    · simp [list_instances, hu, auditBeforeEc2_log]
    · simp [list_instances, hu, auditAttempts, isAuditAttempt]
  · intro cfg env now uid a args
    refine ⟨fun hu hm => ⟨?_, ?_⟩, fun hu => ?_⟩
    · cases h : env.auditOk <;>
        simp [describe_instance, hu, hm, log_action, putItem, h, auditAttempts,
          isAuditAttempt]
    · simp [describe_instance, hu, hm, auditBeforeEc2_log]
    · simp [describe_instance, hu, auditAttempts, isAuditAttempt]
  · intro cfg env now uid
    refine ⟨fun hu => ⟨?_, ?_⟩, fun hu => ?_⟩
    · cases h : env.auditOk <;>
        simp [cost_command, hu, log_action, putItem, h, auditAttempts, isAuditAttempt]
    · simp [cost_command, hu, auditBeforeEc2_log]
    · simp [cost_command, hu, auditAttempts, isAuditAttempt]
  · intro cfg env now uid
    refine ⟨fun ha => ⟨?_, ?_⟩, fun ha => ?_⟩
    · cases h : env.auditOk <;>
        simp [allocate_eip, ha, log_action, putItem, h, auditAttempts, isAuditAttempt]
    · simp [allocate_eip, ha, auditBeforeEc2_log]
    · simp [allocate_eip, ha, auditAttempts, isAuditAttempt]
  · intro cfg env now uid a b args
    refine ⟨fun ha hm => ⟨?_, ?_⟩, fun ha => ?_⟩
    · cases h : env.auditOk <;>
        simp [associate_eip, ha, hm, log_action, putItem, h, auditAttempts, isAuditAttempt]
    · simp [associate_eip, ha, hm, auditBeforeEc2_log]
    · simp [associate_eip, ha, auditAttempts, isAuditAttempt]
  · intro cfg env now uid alloc args
    refine ⟨fun ha hm => ⟨?_, ?_⟩, fun ha => ?_⟩
    · cases h : env.auditOk <;>
        simp [release_eip, ha, hm, log_action, putItem, h, auditAttempts, isAuditAttempt]
    · simp [release_eip, ha, hm, auditBeforeEc2_log]
    · simp [release_eip, ha, auditAttempts, isAuditAttempt]
  · intro cfg env now uid sg port rest args
    refine ⟨fun ha hv hr => ⟨?_, ?_⟩, fun ha => ?_⟩
    · cases hp : port.toNat? <;> cases h : env.auditOk <;>
        simp [add_ip_to_sg, ha, hv, hr, hp, log_action, putItem, h, auditAttempts,
          isAuditAttempt]
    · cases hp : port.toNat? <;>
        simp [add_ip_to_sg, ha, hv, hr, hp, auditBeforeEc2_log]
    · simp [add_ip_to_sg, ha, auditAttempts, isAuditAttempt]
  · intro cfg env now uid sg port rest args
    refine ⟨fun ha hv hr => ⟨?_, ?_⟩, fun ha => ?_⟩
    · cases hp : port.toNat? <;> cases h : env.auditOk <;>
        simp [remove_ip_from_sg, ha, hv, hr, hp, log_action, putItem, h, auditAttempts,
          isAuditAttempt]
    · cases hp : port.toNat? <;>
        simp [remove_ip_from_sg, ha, hv, hr, hp, auditBeforeEc2_log]
    · simp [remove_ip_from_sg, ha, auditAttempts, isAuditAttempt]
  · intro cfg env now uid cb orig ac dc hu hsp
    constructor
    · simp only [handle_callback, hu, hsp, if_true]
      rw [auditAttempts_answer_cons, auditAttempts_append, auditAttempts_log,
        auditAttempts_cbDispatch]
    · simp [handle_callback, hu, hsp, auditBeforeEc2, isAuditAttempt, isProviderCall,
        auditBeforeEc2_log]
  · intro cfg e ids now uid alloc ha hm
    simp [release_eip, ha, hm, log_action, putItem, isAuditAttempt, List.filter_cons,
      List.filter_append]

/-- Witness for the amended claim C3: the admin's valid `/release_eip`
attempts exactly one audit append, and the denied standard user's attempt
appends none. -/
theorem claim_C3_witness :
    auditAttempts (release_eip cfgAdmin demoEnv 0 7 [demoAlloc]) = 1 ∧
    auditAttempts (release_eip cfgMixed demoEnv 0 5 [demoAlloc]) = 0 := by
  refine ⟨?_, ?_⟩
  · exact ((claim_C3_amended.2.2.2.2.2.2.2.1 cfgAdmin demoEnv 0 7 demoAlloc []).1
      (by decide) (by decide)).1
  · exact (claim_C3_amended.2.2.2.2.2.2.2.1 cfgMixed demoEnv 0 5 demoAlloc
      [demoAlloc]).2 (by decide)

/-- Counterexample to claim C8: the inline-callback path performs no id
validation — an admin's `start` callback whose payload fails `INSTANCE_RE`
still reaches the EC2 client with the malformed id, with no usage reply and
no crash. -/
theorem claim_C8_counterexample :
    instanceReMatch bogusId = false ∧
    Effect.ec2Call startOp [bogusId] ∈
      (handle_callback cfgAdmin demoEnv 0 7 (startToken bogusId) origMsg).effects ∧
    (handle_callback cfgAdmin demoEnv 0 7 (startToken bogusId) origMsg).crashed = false := by
  decide

/-- Claim C8 as amended: every command handler carrying a resource id —
instance ids in `/describe` and `/associate_eip`, allocation ids in
`/associate_eip` and `/release_eip`, security-group ids in `/add_ip` and
`/remove_ip` — validates it against its fixed-format pattern after the
authorization decorator and before dispatch: a malformed id gets the usage
reply and no client call, while an unauthorized requester gets the
access-denied reply whatever the id; the inline-callback path performs no
validation and passes any payload to the client. -/
theorem claim_C8_amended :
    (∀ (cfg : Config) (env : Env) (now uid : Nat) (a : String),
        user_authorized_check cfg uid = true → instanceReMatch a = false →
        describe_instance cfg env now uid [a] = [Effect.reply describeUsage []]) ∧
    (∀ (cfg : Config) (env : Env) (now uid : Nat) (a : String),
        admin_only_check cfg uid = true → eipAllocReMatch a = false →
        release_eip cfg env now uid [a] = [Effect.reply releaseUsage []]) ∧
    (∀ (cfg : Config) (env : Env) (now uid : Nat) (a b : String),
        admin_only_check cfg uid = true →
        (eipAllocReMatch a && instanceReMatch b) = false →
        associate_eip cfg env now uid [a, b] = [Effect.reply associateUsage []]) ∧
    (∀ (cfg : Config) (env : Env) (now uid : Nat) (sg port : String) (rest : List String),
        admin_only_check cfg uid = true → sgReMatch sg = false →
        add_ip_to_sg cfg env now uid (sg :: port :: rest) =
          [Effect.reply addIpUsage []]) ∧
    (∀ (cfg : Config) (env : Env) (now uid : Nat) (sg port : String) (rest : List String),
        admin_only_check cfg uid = true → sgReMatch sg = false →
        remove_ip_from_sg cfg env now uid (sg :: port :: rest) =
          [Effect.reply removeIpUsage []]) ∧
    (∀ (cfg : Config) (env : Env) (now uid : Nat) (a : String),
        user_authorized_check cfg uid = false →
        describe_instance cfg env now uid [a] = [Effect.reply unauthorizedMsg []]) ∧
    (∀ (cfg : Config) (env : Env) (now uid : Nat) (args : List String),
        admin_only_check cfg uid = false →
        add_ip_to_sg cfg env now uid args = [Effect.reply adminRequiredCmdMsg []]) ∧
    (∀ (cfg : Config) (env : Env) (now uid : Nat) (iid orig : String),
        admin_only_check cfg uid = true →
        Effect.ec2Call startOp [iid] ∈
          (handle_callback cfg env now uid (startToken iid) orig).effects) := by
  refine ⟨?_, ?_, ?_, ?_, ?_, ?_, ?_, ?_⟩
  · intro cfg env now uid a hu hm
    simp [describe_instance, hu, hm]
  · intro cfg env now uid a ha hm
    simp [release_eip, ha, hm]
  · intro cfg env now uid a b ha hm
    simp [associate_eip, ha, hm]
  · intro cfg env now uid sg port rest ha hm
    simp [add_ip_to_sg, ha, hm]
  · intro cfg env now uid sg port rest ha hm
    simp [remove_ip_from_sg, ha, hm]
  · intro cfg env now uid a hu
    simp [describe_instance, hu]
  · intro cfg env now uid args ha
    simp [add_ip_to_sg, ha]
  · intro cfg env now uid iid orig ha
    have hu : user_authorized_check cfg uid = true := admin_implies_auth cfg uid ha
    have hcb := handle_callback_mkCb cfg env now uid startActionName iid orig hu noColon_start
    simp only [startToken]
    rw [hcb, cbDispatch_start]
    cases h : env.auditOk <;>
      simp [log_action, putItem, h, ec2Edit]

/-- Witness for the amended claim C8: an authorized admin's `/describe` and
`/add_ip` with a malformed id are both rejected with the usage reply. -/
theorem claim_C8_witness :
    describe_instance cfgAdmin demoEnv 0 7 [bogusId] = [Effect.reply describeUsage []] ∧
    add_ip_to_sg cfgAdmin demoEnv 0 7 [bogusId, demoPort] =
      [Effect.reply addIpUsage []] := by
  refine ⟨?_, ?_⟩
  · exact claim_C8_amended.1 cfgAdmin demoEnv 0 7 bogusId (by decide) (by decide)
  · exact claim_C8_amended.2.2.2.1 cfgAdmin demoEnv 0 7 bogusId demoPort []
      (by decide) (by decide)

end AwsBot
